import Mathlib

/-!
A shallow embedding of the DNSSEC trust-anchor store of
`src/resolve/resolved-dns-trust-anchor.c`, together with proofs about its
load, flush and lookup operations.

The store itself (`dns_trust_anchor_add_builtin`, `dns_trust_anchor_load_positive`,
`dns_trust_anchor_load_negative`, `dns_trust_anchor_load`, `dns_trust_anchor_flush`,
`dns_trust_anchor_lookup_positive`, `dns_trust_anchor_lookup_negative`) is translated
from the C source.  The collaborators it consumes (DNS name validation and
equality, word extraction, hex/base64 decoding, the DNSSEC algorithm/digest
name tables, the hashmap/set containers and the answer-set merge) live outside
this file's source and are modelled from the specification, as marked on each
definition.

Machine integers are modelled as `Nat` (all values here are small and no
arithmetic can overflow); C error returns are modelled as negative `Int`
status codes paired with the resulting store.  The possibility of memory
exhaustion during builtin-anchor installation — the one fatal condition —
is modelled by an explicit `oom : Bool` parameter.
-/

namespace TrustAnchor

/-- DNS class IN (numeric value 1). -/
def DNS_CLASS_IN : Nat := 1

/-- DNS RR type DS (numeric value 43). -/
def DNS_TYPE_DS : Nat := 43

/-- DNS RR type DNSKEY (numeric value 48). -/
def DNS_TYPE_DNSKEY : Nat := 48

/-- DNSSEC algorithm RSASHA256 (numeric value 8). -/
def DNSSEC_ALGORITHM_RSASHA256 : Nat := 8

/-- DNSSEC digest SHA-256 (numeric value 2). -/
def DNSSEC_DIGEST_SHA256 : Nat := 2

/-- Answer flag: record is authenticated. -/
def DNS_ANSWER_AUTHENTICATED : Nat := 1

/-- errno EINVAL. -/
def EINVAL : Int := 22

/-- errno ENOMEM. -/
def ENOMEM : Int := 12

/-- ASCII lower-casing of a single character. -/
def ascii_lower (c : Char) : Char :=
  if decide ('A' ≤ c) && decide (c ≤ 'Z') then Char.ofNat (c.toNat + 32) else c

/-- Normalized form of a DNS presentation name: ASCII-lower-cased, with a
single trailing dot removed (so the root is the empty string). -/
def dns_name_normalize_chars (cs : List Char) : List Char :=
  let ls := cs.map ascii_lower
  if ls.getLast? = some '.' then ls.dropLast else ls

/-- Modelled from the spec: the DNS name equality used by the key and name
containers compares normalized names (case-insensitive, root written "" or "."). -/
def dns_name_equal (a b : String) : Bool :=
  decide (dns_name_normalize_chars a.data = dns_name_normalize_chars b.data)

/-- Characters allowed in an (unescaped) DNS label. -/
def dns_valid_char (c : Char) : Bool :=
  (decide ('a' ≤ c) && decide (c ≤ 'z')) || (decide ('A' ≤ c) && decide (c ≤ 'Z')) ||
  (decide ('0' ≤ c) && decide (c ≤ '9')) || c == '-' || c == '_'

/-- Split a character list on '.' separators. -/
def splitOnDot : List Char → List (List Char)
  | [] => [[]]
  | c :: rest =>
    if c = '.' then [] :: splitOnDot rest
    else
      match splitOnDot rest with
      | [] => [[c]]
      | l :: ls => (c :: l) :: ls

/-- A DNS label is 1–63 allowed characters. -/
def dns_label_ok (l : List Char) : Bool :=
  decide (1 ≤ l.length) && decide (l.length ≤ 63) && l.all dns_valid_char

/-- Modelled from the spec: the DNS name syntax validator `dns_name_is_valid`.
The root may be written "" or "."; otherwise every dot-separated label must be
1–63 allowed characters and the name must fit the overall length bound. -/
def dns_name_is_valid (s : String) : Bool :=
  let cs := s.data
  if cs = [] then true
  else if cs = ['.'] then true
  else
    let body := if cs.getLast? = some '.' then cs.dropLast else cs
    decide (body.length ≤ 253) && (splitOnDot body).all dns_label_ok

/-- Whitespace recognised by the tokenizer. -/
def is_ws (c : Char) : Bool := c == ' ' || c == '\t' || c == '\n' || c == '\r'

/-- Modelled from the spec: word extraction with quoting
(`extract_first_word` / `extract_many_words` with EXTRACT_QUOTES), as a
whole-line tokenizer.  The fuel argument bounds recursion by the input length. -/
def tokenizeAux : Nat → List Char → List String
  | 0, _ => []
  | _ + 1, [] => []
  | fuel + 1, c :: rest =>
    if is_ws c then tokenizeAux fuel rest
    else if c == '"' || c == '\'' then
      let tok := rest.takeWhile (fun d => d != c)
      let rest2 := (rest.dropWhile (fun d => d != c)).drop 1
      String.mk tok :: tokenizeAux fuel rest2
    else
      let tok := c :: rest.takeWhile (fun d => !(is_ws d))
      let rest2 := rest.dropWhile (fun d => !(is_ws d))
      String.mk tok :: tokenizeAux fuel rest2

/-- Tokenize a configuration line. -/
def tokenize (s : String) : List String := tokenizeAux s.data.length s.data

/-- Strip leading and trailing whitespace (`strstrip`). -/
def strstrip (s : String) : String :=
  String.mk (((s.data.dropWhile is_ws).reverse.dropWhile is_ws).reverse)

/-- Value of a decimal digit. -/
def digit_val (c : Char) : Option Nat :=
  if decide ('0' ≤ c) && decide (c ≤ '9') then some (c.toNat - '0'.toNat) else none

/-- Accumulating decimal parser. -/
def parse_decimal_aux : List Char → Nat → Option Nat
  | [], acc => some acc
  | c :: rest, acc =>
    match digit_val c with
    | none => none
    | some d => parse_decimal_aux rest (acc * 10 + d)

/-- Modelled from the spec: `safe_atou16` parses a decimal number fitting 16 bits. -/
def safe_atou16 (s : String) : Option Nat :=
  match s.data with
  | [] => none
  | cs =>
    match parse_decimal_aux cs 0 with
    | none => none
    | some n => if n ≤ 65535 then some n else none

/-- Modelled from the spec: the DNSSEC algorithm symbolic-name-to-id table
(`dnssec_algorithm_from_string`), with a numeric fallback for ids 0–255. -/
def dnssec_algorithm_from_string (s : String) : Option Nat :=
  if s = "RSAMD5" then some 1
  else if s = "DH" then some 2
  else if s = "DSA" then some 3
  else if s = "ECC" then some 4
  else if s = "RSASHA1" then some 5
  else if s = "DSA-NSEC3-SHA1" then some 6
  else if s = "RSASHA1-NSEC3-SHA1" then some 7
  else if s = "RSASHA256" then some 8
  else if s = "RSASHA512" then some 10
  else if s = "ECC-GOST" then some 12
  else if s = "ECDSAP256SHA256" then some 13
  else if s = "ECDSAP384SHA384" then some 14
  else
    match safe_atou16 s with
    | some n => if n ≤ 255 then some n else none
    | none => none

/-- Modelled from the spec: the DNSSEC digest symbolic-name-to-id table
(`dnssec_digest_from_string`), with a numeric fallback for ids 0–255. -/
def dnssec_digest_from_string (s : String) : Option Nat :=
  if s = "SHA-1" then some 1
  else if s = "SHA-256" then some 2
  else if s = "GOST_R_34_11_94" then some 3
  else if s = "SHA-384" then some 4
  else
    match safe_atou16 s with
    | some n => if n ≤ 255 then some n else none
    | none => none

/-- Value of a hexadecimal digit. -/
def hex_val (c : Char) : Option Nat :=
  if decide ('0' ≤ c) && decide (c ≤ '9') then some (c.toNat - '0'.toNat)
  else if decide ('a' ≤ c) && decide (c ≤ 'f') then some (c.toNat - 'a'.toNat + 10)
  else if decide ('A' ≤ c) && decide (c ≤ 'F') then some (c.toNat - 'A'.toNat + 10)
  else none

/-- Modelled from the spec: the hex decoder `unhexmem`: pairs of hex digits
become bytes; an odd-length or non-hex input is rejected. -/
def unhexmem_chars : List Char → Option (List Nat)
  | [] => some []
  | [_] => none
  | a :: b :: rest =>
    match hex_val a, hex_val b, unhexmem_chars rest with
    | some x, some y, some tl => some ((x * 16 + y) :: tl)
    | _, _, _ => none

/-- Hex-decode a string to bytes. -/
def unhexmem (s : String) : Option (List Nat) := unhexmem_chars s.data

/-- Value of a base64 alphabet character. -/
def base64_val (c : Char) : Option Nat :=
  if decide ('A' ≤ c) && decide (c ≤ 'Z') then some (c.toNat - 'A'.toNat)
  else if decide ('a' ≤ c) && decide (c ≤ 'z') then some (c.toNat - 'a'.toNat + 26)
  else if decide ('0' ≤ c) && decide (c ≤ '9') then some (c.toNat - '0'.toNat + 52)
  else if c == '+' then some 62
  else if c == '/' then some 63
  else none

/-- Modelled from the spec: the base64 decoder `unbase64mem`: groups of four
alphabet characters become three bytes, with '=' padding at the end. -/
def unbase64_chars : List Char → Option (List Nat)
  | [] => some []
  | [a, b, '=', '='] =>
    match base64_val a, base64_val b with
    | some x, some y => if y % 16 = 0 then some [x * 4 + y / 16] else none
    | _, _ => none
  | [a, b, c, '='] =>
    match base64_val a, base64_val b, base64_val c with
    | some x, some y, some z =>
      if z % 4 = 0 then some [x * 4 + y / 16, (y % 16) * 16 + z / 4] else none
    | _, _, _ => none
  | a :: b :: c :: d :: rest =>
    match base64_val a, base64_val b, base64_val c, base64_val d, unbase64_chars rest with
    | some x, some y, some z, some w, some tl =>
      some ((x * 4 + y / 16) :: ((y % 16) * 16 + z / 4) :: ((z % 4) * 64 + w) :: tl)
    | _, _, _, _, _ => none
  | _ => none

/-- Base64-decode a string to bytes. -/
def unbase64mem (s : String) : Option (List Nat) := unbase64_chars s.data

/-- A resource key: class, type, domain. -/
structure DnsResourceKey where
  rclass : Nat
  rtype : Nat
  name : String
deriving DecidableEq, Repr

/-- Record payload: either DS or DNSKEY data. -/
inductive DnsRData where
  | ds (key_tag algorithm digest_type : Nat) (digest : List Nat)
  | dnskey (flags protocol algorithm : Nat) (key : List Nat)
deriving DecidableEq, Repr

/-- A resource record: a key plus its payload. -/
structure DnsResourceRecord where
  key : DnsResourceKey
  rdata : DnsRData
deriving DecidableEq, Repr

/-- Modelled from the spec: key identity (`dns_resource_key_equal`) is by
class, type and normalized domain name. -/
def dns_resource_key_equal (a b : DnsResourceKey) : Bool :=
  decide (a.rclass = b.rclass) && decide (a.rtype = b.rtype) && dns_name_equal a.name b.name

/-- Modelled from the spec: structural record equality
(`dns_resource_record_equal`) — keys equal and all payload fields equal. -/
def dns_resource_record_equal (a b : DnsResourceRecord) : Bool :=
  dns_resource_key_equal a.key b.key && decide (a.rdata = b.rdata)

/-- One answer item: a record and its answer flags. -/
abbrev DnsAnswerItem := DnsResourceRecord × Nat

/-- An answer set: ordered, duplicate-free list of answer items. -/
abbrev DnsAnswer := List DnsAnswerItem

/-- Modelled from the spec: `dns_answer_add` with duplicate suppression — if a
structurally equal record is already present, merge flags into the existing
item (a no-op set-wise); otherwise append the record. -/
def dns_answer_add (a : DnsAnswer) (rr : DnsResourceRecord) (flags : Nat) : DnsAnswer :=
  if a.any (fun it => dns_resource_record_equal it.1 rr) then
    a.map (fun it => if dns_resource_record_equal it.1 rr then (rr, Nat.lor it.2 flags) else it)
  else a ++ [(rr, flags)]

/-- Modelled from the spec: `dns_answer_add_extend` produces a new set (never
mutating the one passed in) holding the merge of the old set and the record. -/
def dns_answer_add_extend (a : DnsAnswer) (rr : DnsResourceRecord) (flags : Nat) : DnsAnswer :=
  dns_answer_add a rr flags

/-- The positive store: an association list from key to answer set. -/
abbrev PositiveMap := List (DnsResourceKey × DnsAnswer)

/-- Modelled from the spec: `hashmap_get` retrieves the answer stored under a
key equal (in the `dns_resource_key_equal` sense) to the one queried. -/
def hashmap_get (m : PositiveMap) (k : DnsResourceKey) : Option DnsAnswer :=
  match m.find? (fun e => dns_resource_key_equal e.1 k) with
  | some e => some e.2
  | none => none

/-- Modelled from the spec: `hashmap_put` inserts a fresh entry. -/
def hashmap_put (m : PositiveMap) (k : DnsResourceKey) (v : DnsAnswer) : PositiveMap :=
  m ++ [(k, v)]

/-- Modelled from the spec: `hashmap_replace` replaces the entry under an
equal key in one step, or inserts it if absent. -/
def hashmap_replace : PositiveMap → DnsResourceKey → DnsAnswer → PositiveMap
  | [], k, v => [(k, v)]
  | e :: rest, k, v =>
    if dns_resource_key_equal e.1 k then (k, v) :: rest
    else e :: hashmap_replace rest k v

/-- Modelled from the spec: `set_put` over DNS names — inserting a name already
present (up to name equality) is a no-op. -/
def set_put (s : List String) (n : String) : List String :=
  if s.any (fun x => dns_name_equal x n) then s else s ++ [n]

/-- Modelled from the spec: `set_contains` over DNS names. -/
def set_contains (s : List String) (n : String) : Bool :=
  s.any (fun x => dns_name_equal x n)

/-- The trust anchor store.  `none` models a not-yet-allocated (NULL) container,
as on a freshly created or flushed store. -/
structure DnsTrustAnchor where
  positive_by_key : Option PositiveMap
  negative_by_name : Option (List String)
deriving Repr

/-- The empty store: both containers unallocated. -/
def DnsTrustAnchor.empty : DnsTrustAnchor := ⟨none, none⟩

/-- The compiled-in root DS digest (32 bytes, December 2015 root anchor). -/
def root_digest : List Nat :=
  [0x49, 0xAA, 0xC1, 0x1D, 0x7B, 0x6F, 0x64, 0x46, 0x70, 0x2E, 0x54, 0xA1, 0x60, 0x73, 0x71, 0x60,
   0x7A, 0x1A, 0x41, 0x85, 0x52, 0x00, 0xFD, 0x2C, 0xE1, 0xCD, 0xDE, 0x32, 0xF2, 0x4E, 0x8F, 0xB5]

/-- The builtin root DS record (domain written "" as in the source). -/
def builtin_root_rr : DnsResourceRecord :=
  ⟨⟨DNS_CLASS_IN, DNS_TYPE_DS, ""⟩,
   .ds 19036 DNSSEC_ALGORITHM_RSASHA256 DNSSEC_DIGEST_SHA256 root_digest⟩

/-- The key the builtin installer probes for (domain written "." as in the source). -/
def root_ds_lookup_key : DnsResourceKey := ⟨DNS_CLASS_IN, DNS_TYPE_DS, "."⟩

/-- `dns_trust_anchor_add_builtin`: ensure the positive map is allocated, do
nothing if an entry for (IN, DS, root) exists, else insert the builtin root DS
record.  `oom` models allocation failure, the only error path. -/
def dns_trust_anchor_add_builtin (oom : Bool) (d : DnsTrustAnchor) : Int × DnsTrustAnchor :=
  if d.positive_by_key = none ∧ oom then (-ENOMEM, d)
  else
    let m := d.positive_by_key.getD []
    if (hashmap_get m root_ds_lookup_key).isSome then (0, { d with positive_by_key := some m })
    else if oom then (-ENOMEM, { d with positive_by_key := some m })
    else
      let ans := dns_answer_add [] builtin_root_rr DNS_ANSWER_AUTHENTICATED
      (0, { d with positive_by_key := some (hashmap_put m builtin_root_rr.key ans) })

/-- The pure parsing phase of `dns_trust_anchor_load_positive` for a DS line:
key tag, algorithm, digest type, hex digest, then no trailing garbage. -/
def parse_ds_params (domain : String) : List String → Except Int DnsResourceRecord
  | key_tag :: algorithm :: digest_type :: digest :: rest =>
    match safe_atou16 key_tag with
    | none => .error (-EINVAL)
    | some kt =>
      match dnssec_algorithm_from_string algorithm with
      | none => .error (-EINVAL)
      | some a =>
        match dnssec_digest_from_string digest_type with
        | none => .error (-EINVAL)
        | some dt =>
          match unhexmem digest with
          | none => .error (-EINVAL)
          | some dd =>
            if rest ≠ [] then .error (-EINVAL)
            else .ok ⟨⟨DNS_CLASS_IN, DNS_TYPE_DS, domain⟩, .ds kt a dt dd⟩
  | _ => .error (-EINVAL)

/-- The pure parsing phase of `dns_trust_anchor_load_positive` for a DNSKEY
line: flags, protocol (literally "3"), algorithm, base64 key, no trailing garbage. -/
def parse_dnskey_params (domain : String) : List String → Except Int DnsResourceRecord
  | flags :: protocol :: algorithm :: key :: rest =>
    if protocol ≠ "3" then .error (-EINVAL)
    else
      match safe_atou16 flags with
      | none => .error (-EINVAL)
      | some f =>
        match dnssec_algorithm_from_string algorithm with
        | none => .error (-EINVAL)
        | some a =>
          match unbase64mem key with
          | none => .error (-EINVAL)
          | some k =>
            if rest ≠ [] then .error (-EINVAL)
            else .ok ⟨⟨DNS_CLASS_IN, DNS_TYPE_DNSKEY, domain⟩, .dnskey f 3 a k⟩
  | _ => .error (-EINVAL)

/-- Case-insensitive ASCII string equality (`strcaseeq`). -/
def strcaseeq (a b : String) : Bool :=
  decide (a.data.map ascii_lower = b.data.map ascii_lower)

/-- The parsing phase of `dns_trust_anchor_load_positive` (source lines 96–221):
domain, class IN, type DS or DNSKEY, then the type-specific fields. -/
def parse_positive_rr (s : String) : Except Int DnsResourceRecord :=
  match tokenize s with
  | [] => .error (-EINVAL)
  | domain :: rest =>
    if dns_name_is_valid domain = false then .error (-EINVAL)
    else
      match rest with
      | cls :: typ :: rest2 =>
        if strcaseeq cls "IN" = false then .error (-EINVAL)
        else if strcaseeq typ "DS" then parse_ds_params domain rest2
        else if strcaseeq typ "DNSKEY" then parse_dnskey_params domain rest2
        else .error (-EINVAL)
      | _ => .error (-EINVAL)

/-- `dns_trust_anchor_load_positive`: parse the line; on success fetch the old
answer set for the record's key, merge the record into a new set, and replace
the stored entry.  On any parse error the store is untouched. -/
def dns_trust_anchor_load_positive (d : DnsTrustAnchor) (s : String) : Int × DnsTrustAnchor :=
  match parse_positive_rr s with
  | .error e => (e, d)
  | .ok rr =>
    let m := d.positive_by_key.getD []
    let old_answer := hashmap_get m rr.key
    let answer := dns_answer_add_extend (old_answer.getD []) rr DNS_ANSWER_AUTHENTICATED
    (0, { d with positive_by_key := some (hashmap_replace m rr.key answer) })

/-- `dns_trust_anchor_load_negative`: one valid domain token, nothing after it;
insert the name into the negative set. -/
def dns_trust_anchor_load_negative (d : DnsTrustAnchor) (s : String) : Int × DnsTrustAnchor :=
  match tokenize s with
  | [] => (-EINVAL, d)
  | domain :: rest =>
    if dns_name_is_valid domain = false then (-EINVAL, d)
    else if rest ≠ [] then (-EINVAL, d)
    else (0, { d with negative_by_name := some (set_put (d.negative_by_name.getD []) domain) })

/-- One line of `dns_trust_anchor_load_files`: strip, skip empty and ';' comment
lines, otherwise run the loader and discard its status. -/
def load_line (loader : DnsTrustAnchor → String → Int × DnsTrustAnchor)
    (d : DnsTrustAnchor) (raw : String) : DnsTrustAnchor :=
  let l := strstrip raw
  if l.data = [] then d
  else if l.data.head? = some ';' then d
  else (loader d l).2

/-- `dns_trust_anchor_load_files`: feed every line of every file to the loader,
best-effort (per-line statuses are discarded). -/
def dns_trust_anchor_load_files (loader : DnsTrustAnchor → String → Int × DnsTrustAnchor)
    (d : DnsTrustAnchor) (files : List (List String)) : DnsTrustAnchor :=
  files.foldl (fun st lines => lines.foldl (load_line loader) st) d

/-- `dns_trust_anchor_load`: run the positive loader, the negative loader (both
best-effort), then the builtin installer, whose failure is the only error. -/
def dns_trust_anchor_load (oom : Bool) (pos_files neg_files : List (List String))
    (d : DnsTrustAnchor) : Int × DnsTrustAnchor :=
  let d1 := dns_trust_anchor_load_files dns_trust_anchor_load_positive d pos_files
  let d2 := dns_trust_anchor_load_files dns_trust_anchor_load_negative d1 neg_files
  let rb := dns_trust_anchor_add_builtin oom d2
  if rb.1 < 0 then rb else (0, rb.2)

/-- `dns_trust_anchor_flush`: discard both containers (back to NULL). -/
def dns_trust_anchor_flush (_d : DnsTrustAnchor) : DnsTrustAnchor := ⟨none, none⟩

/-- `dns_trust_anchor_lookup_positive`: only DS and DNSKEY keys are served;
otherwise look the key up in the positive map (NULL map serves nothing). -/
def dns_trust_anchor_lookup_positive (d : DnsTrustAnchor) (key : DnsResourceKey) :
    Option DnsAnswer :=
  if key.rtype = DNS_TYPE_DS ∨ key.rtype = DNS_TYPE_DNSKEY then
    hashmap_get (d.positive_by_key.getD []) key
  else none

/-- `dns_trust_anchor_lookup_negative`: exact (normalized) membership in the
negative name set. -/
def dns_trust_anchor_lookup_negative (d : DnsTrustAnchor) (name : String) : Bool :=
  set_contains (d.negative_by_name.getD []) name

/-- All keys stored in the positive map are of type DS or DNSKEY. -/
def positive_types_ok (d : DnsTrustAnchor) : Prop :=
  ∀ e ∈ d.positive_by_key.getD [], e.1.rtype = DNS_TYPE_DS ∨ e.1.rtype = DNS_TYPE_DNSKEY

theorem dns_resource_key_equal_iff (a b : DnsResourceKey) :
    dns_resource_key_equal a b = true ↔
      (a.rclass = b.rclass ∧ a.rtype = b.rtype ∧
       dns_name_normalize_chars a.name.data = dns_name_normalize_chars b.name.data) := by
  simp [dns_resource_key_equal, dns_name_equal, Bool.and_eq_true, decide_eq_true_eq, and_assoc]

theorem dns_resource_key_equal_refl (k : DnsResourceKey) :
    dns_resource_key_equal k k = true :=
  (dns_resource_key_equal_iff k k).mpr ⟨rfl, rfl, rfl⟩

theorem dns_resource_key_equal_symm (a b : DnsResourceKey)
    (h : dns_resource_key_equal a b = true) : dns_resource_key_equal b a = true := by
  rw [dns_resource_key_equal_iff] at h ⊢
  exact ⟨h.1.symm, h.2.1.symm, h.2.2.symm⟩

theorem dns_resource_key_equal_trans (a b c : DnsResourceKey)
    (h1 : dns_resource_key_equal a b = true) (h2 : dns_resource_key_equal b c = true) :
    dns_resource_key_equal a c = true := by
  rw [dns_resource_key_equal_iff] at h1 h2 ⊢
  exact ⟨h1.1.trans h2.1, h1.2.1.trans h2.2.1, h1.2.2.trans h2.2.2⟩

theorem dns_resource_record_equal_refl (rr : DnsResourceRecord) :
    dns_resource_record_equal rr rr = true := by
  simp [dns_resource_record_equal, dns_resource_key_equal_refl]

theorem hashmap_get_nil (k : DnsResourceKey) : hashmap_get [] k = none := rfl

theorem hashmap_get_cons (e : DnsResourceKey × DnsAnswer) (m : PositiveMap)
    (k : DnsResourceKey) :
    hashmap_get (e :: m) k =
      (if dns_resource_key_equal e.1 k then some e.2 else hashmap_get m k) := by
  simp only [hashmap_get, List.find?]
  rcases h : dns_resource_key_equal e.1 k <;> simp [h]

theorem hashmap_get_append_of_none (m : PositiveMap) (k k' : DnsResourceKey) (v : DnsAnswer)
    (h : hashmap_get m k' = none) :
    hashmap_get (m ++ [(k, v)]) k' =
      (if dns_resource_key_equal k k' then some v else none) := by
  induction m with
  | nil => simp [hashmap_get, List.find?]; rcases hk : dns_resource_key_equal k k' <;> simp [hk]
  | cons e rest ih =>
    rw [List.cons_append, hashmap_get_cons] at *
    rcases he : dns_resource_key_equal e.1 k' <;> simp [he] at h ⊢
    · exact ih h

theorem hashmap_get_append_of_some (m : PositiveMap) (k k' : DnsResourceKey)
    (v a : DnsAnswer) (h : hashmap_get m k' = some a) :
    hashmap_get (m ++ [(k, v)]) k' = some a := by
  induction m with
  | nil => simp [hashmap_get_nil] at h
  | cons e rest ih =>
    rw [List.cons_append, hashmap_get_cons]
    rw [hashmap_get_cons] at h
    rcases he : dns_resource_key_equal e.1 k' <;> simp [he] at h ⊢
    · exact ih h
    · exact h

theorem hashmap_get_replace_self (m : PositiveMap) (k k' : DnsResourceKey) (v : DnsAnswer)
    (h : dns_resource_key_equal k k' = true) :
    hashmap_get (hashmap_replace m k v) k' = some v := by
  induction m with
  | nil => simp [hashmap_replace, hashmap_get_cons, h, hashmap_get_nil]
  | cons e rest ih =>
    unfold hashmap_replace
    rcases he : dns_resource_key_equal e.1 k
    · have hek : dns_resource_key_equal e.1 k' = false := by
        rcases hh : dns_resource_key_equal e.1 k'
        · rfl
        · exact absurd
            (dns_resource_key_equal_trans _ _ _ hh (dns_resource_key_equal_symm _ _ h))
            (by simp [he])
      simp [he, hashmap_get_cons, hek, ih]
    · simp [he, hashmap_get_cons, h]

theorem hashmap_get_replace_of_ne (m : PositiveMap) (k k' : DnsResourceKey) (v : DnsAnswer)
    (h : dns_resource_key_equal k' k = false) :
    hashmap_get (hashmap_replace m k v) k' = hashmap_get m k' := by
  have hk : dns_resource_key_equal k k' = false := by
    rcases hkk : dns_resource_key_equal k k'
    · rfl
    · exact absurd (dns_resource_key_equal_symm _ _ hkk) (by simp [h])
  induction m with
  | nil => simp [hashmap_replace, hashmap_get_cons, hk, hashmap_get_nil]
  | cons e rest ih =>
    unfold hashmap_replace
    rcases he : dns_resource_key_equal e.1 k
    · rcases hek : dns_resource_key_equal e.1 k' <;> simp [hashmap_get_cons, hek, ih]
    · have hek : dns_resource_key_equal e.1 k' = false := by
        rcases hh : dns_resource_key_equal e.1 k'
        · rfl
        · exact absurd
            (dns_resource_key_equal_trans _ _ _ (dns_resource_key_equal_symm _ _ he) hh)
            (by simp [hk])
      simp [hashmap_get_cons, hk, hek]

theorem mem_hashmap_replace (m : PositiveMap) (k : DnsResourceKey) (v : DnsAnswer)
    (e : DnsResourceKey × DnsAnswer) (h : e ∈ hashmap_replace m k v) :
    e ∈ m ∨ e = (k, v) := by
  induction m with
  | nil => simp [hashmap_replace] at h; simp [h]
  | cons f rest ih =>
    unfold hashmap_replace at h
    rcases hf : dns_resource_key_equal f.1 k <;> simp [hf] at h
    · rcases h with h | h
      · simp [h]
      · rcases ih h with h' | h'
        · exact Or.inl (List.mem_cons_of_mem _ h')
        · exact Or.inr h'
    · rcases h with h | h
      · exact Or.inr h
      · exact Or.inl (List.mem_cons_of_mem _ h)

theorem parse_ds_params_key (dom : String) (ts : List String) (rr : DnsResourceRecord)
    (h : parse_ds_params dom ts = .ok rr) :
    rr.key = ⟨DNS_CLASS_IN, DNS_TYPE_DS, dom⟩ := by
  match ts with
  | [] => simp [parse_ds_params] at h
  | [_] => simp [parse_ds_params] at h
  | [_, _] => simp [parse_ds_params] at h
  | [_, _, _] => simp [parse_ds_params] at h
  | _ :: _ :: _ :: _ :: _ =>
    unfold parse_ds_params at h
    repeat' split at h
    all_goals (try cases h)
    all_goals rfl

theorem parse_dnskey_params_key (dom : String) (ts : List String) (rr : DnsResourceRecord)
    (h : parse_dnskey_params dom ts = .ok rr) :
    rr.key = ⟨DNS_CLASS_IN, DNS_TYPE_DNSKEY, dom⟩ := by
  match ts with
  | [] => simp [parse_dnskey_params] at h
  | [_] => simp [parse_dnskey_params] at h
  | [_, _] => simp [parse_dnskey_params] at h
  | [_, _, _] => simp [parse_dnskey_params] at h
  | _ :: _ :: _ :: _ :: _ =>
    unfold parse_dnskey_params at h
    repeat' split at h
    all_goals (try cases h)
    all_goals rfl

theorem parse_positive_rr_key (s : String) (rr : DnsResourceRecord)
    (h : parse_positive_rr s = .ok rr) :
    rr.key.rclass = DNS_CLASS_IN ∧
      (rr.key.rtype = DNS_TYPE_DS ∨ rr.key.rtype = DNS_TYPE_DNSKEY) := by
  unfold parse_positive_rr at h
  repeat' split at h
  all_goals
    first
    | (have hk := parse_ds_params_key _ _ _ h
       simp [hk, DNS_CLASS_IN, DNS_TYPE_DS, DNS_TYPE_DNSKEY])
    | (have hk := parse_dnskey_params_key _ _ _ h
       simp [hk, DNS_CLASS_IN, DNS_TYPE_DS, DNS_TYPE_DNSKEY])
    | simp_all

theorem load_positive_ok (d : DnsTrustAnchor) (s : String) (rr : DnsResourceRecord)
    (h : parse_positive_rr s = .ok rr) :
    dns_trust_anchor_load_positive d s =
      (0, ⟨some (hashmap_replace (d.positive_by_key.getD []) rr.key
             (dns_answer_add_extend ((hashmap_get (d.positive_by_key.getD []) rr.key).getD [])
               rr DNS_ANSWER_AUTHENTICATED)),
           d.negative_by_name⟩) := by
  cases d with
  | mk p n => simp [dns_trust_anchor_load_positive, h]

theorem load_positive_err (d : DnsTrustAnchor) (s : String) (e : Int)
    (h : parse_positive_rr s = .error e) :
    dns_trust_anchor_load_positive d s = (e, d) := by
  simp [dns_trust_anchor_load_positive, h]

theorem load_positive_empty (s : String) (rr : DnsResourceRecord)
    (h : parse_positive_rr s = .ok rr) :
    dns_trust_anchor_load_positive DnsTrustAnchor.empty s =
      (0, ⟨some [(rr.key, [(rr, DNS_ANSWER_AUTHENTICATED)])], none⟩) := by
  rw [load_positive_ok _ _ _ h]
  simp [DnsTrustAnchor.empty, hashmap_get_nil, dns_answer_add_extend, dns_answer_add,
    hashmap_replace]

theorem lookup_positive_single (rr : DnsResourceRecord) (n : Option (List String))
    (hty : rr.key.rtype = DNS_TYPE_DS ∨ rr.key.rtype = DNS_TYPE_DNSKEY) :
    dns_trust_anchor_lookup_positive ⟨some [(rr.key, [(rr, DNS_ANSWER_AUTHENTICATED)])], n⟩
      rr.key = some [(rr, DNS_ANSWER_AUTHENTICATED)] := by
  unfold dns_trust_anchor_lookup_positive
  rw [if_pos hty]
  simp [hashmap_get_cons, dns_resource_key_equal_refl]

theorem add_builtin_false_fst (d : DnsTrustAnchor) :
    (dns_trust_anchor_add_builtin false d).1 = 0 := by
  unfold dns_trust_anchor_add_builtin
  simp only [Bool.false_eq_true, and_false, if_false]
  split <;> simp

theorem add_builtin_establishes_root (d : DnsTrustAnchor) :
    ∃ m a, (dns_trust_anchor_add_builtin false d).2.positive_by_key = some m ∧
      hashmap_get m root_ds_lookup_key = some a := by
  cases d with
  | mk p n =>
    cases p with
    | none => exact ⟨_, _, rfl, rfl⟩
    | some m0 =>
      rcases hg0 : hashmap_get m0 root_ds_lookup_key with _ | a0
      · have hpos : (dns_trust_anchor_add_builtin false ⟨some m0, n⟩).2.positive_by_key =
            some (hashmap_put m0 builtin_root_rr.key
              (dns_answer_add [] builtin_root_rr DNS_ANSWER_AUTHENTICATED)) := by
          unfold dns_trust_anchor_add_builtin
          simp [hg0]
        refine ⟨_, dns_answer_add [] builtin_root_rr DNS_ANSWER_AUTHENTICATED, hpos, ?_⟩
        rw [hashmap_put, hashmap_get_append_of_none _ _ _ _ hg0,
          if_pos (show dns_resource_key_equal builtin_root_rr.key root_ds_lookup_key = true
            by decide)]
      · have hpos : (dns_trust_anchor_add_builtin false ⟨some m0, n⟩).2 = ⟨some m0, n⟩ := by
          unfold dns_trust_anchor_add_builtin
          simp [hg0]
        exact ⟨m0, a0, by rw [hpos], hg0⟩

/-- C1: After a successful `Load()` on an empty store with zero configuration
files, `LookupPositive` at the key (class IN, type DS, root domain) returns
found, and the answer set contains exactly the builtin root DS record:
key_tag 19036, algorithm RSA/SHA-256, digest type SHA-256, and the fixed
32-byte digest. -/
theorem C1_builtin_root_ds_served_after_empty_load :
    (dns_trust_anchor_load false [] [] DnsTrustAnchor.empty).1 = 0 ∧
    dns_trust_anchor_lookup_positive
        (dns_trust_anchor_load false [] [] DnsTrustAnchor.empty).2
        ⟨DNS_CLASS_IN, DNS_TYPE_DS, "."⟩ =
      some [(⟨⟨DNS_CLASS_IN, DNS_TYPE_DS, ""⟩,
        .ds 19036 DNSSEC_ALGORITHM_RSASHA256 DNSSEC_DIGEST_SHA256 root_digest⟩,
        DNS_ANSWER_AUTHENTICATED)] ∧
    root_digest.length = 32 := by
  refine ⟨rfl, ?_, rfl⟩
  rfl

/-- C2: The builtin anchor installer is idempotent: whenever the positive
store already holds an entry for the root DS key — whatever its contents —
the installer leaves the whole store unchanged and reports success; and a
second run right after a successful run likewise has no further effect. -/
theorem C2_add_builtin_idempotent :
    (∀ (oom : Bool) (d : DnsTrustAnchor) (m : PositiveMap) (a : DnsAnswer),
      d.positive_by_key = some m →
      hashmap_get m root_ds_lookup_key = some a →
      dns_trust_anchor_add_builtin oom d = (0, d)) ∧
    (∀ (oom : Bool) (d : DnsTrustAnchor),
      dns_trust_anchor_add_builtin oom (dns_trust_anchor_add_builtin false d).2 =
        (0, (dns_trust_anchor_add_builtin false d).2)) := by
  have h1 : ∀ (oom : Bool) (d : DnsTrustAnchor) (m : PositiveMap) (a : DnsAnswer),
      d.positive_by_key = some m →
      hashmap_get m root_ds_lookup_key = some a →
      dns_trust_anchor_add_builtin oom d = (0, d) := by
    intro oom d m a hm hg
    cases d with
    | mk p n =>
      simp only at hm
      subst hm
      unfold dns_trust_anchor_add_builtin
      simp [hg]
  refine ⟨h1, ?_⟩
  intro oom d
  obtain ⟨m, a, hm, hg⟩ := add_builtin_establishes_root d
  exact h1 oom _ m a hm hg

/-- Witness for C2: a store whose root DS entry is an operator-provided empty
answer set is left untouched by the installer even under memory pressure. -/
theorem C2_add_builtin_idempotent_witness :
    dns_trust_anchor_add_builtin true ⟨some [(root_ds_lookup_key, [])], some []⟩ =
      (0, ⟨some [(root_ds_lookup_key, [])], some []⟩) :=
  C2_add_builtin_idempotent.1 true ⟨some [(root_ds_lookup_key, [])], some []⟩
    [(root_ds_lookup_key, [])] [] rfl (by decide)

/-- C3: For every configuration state, `Load()` succeeds when no resource
exhaustion occurs — per-line parse failures and per-file failures are always
swallowed — and `Load()` returns an error exactly when the builtin anchor
installer fails. -/
theorem C3_load_fails_iff_builtin_fails :
    ∀ (pos neg : List (List String)) (d : DnsTrustAnchor),
      (dns_trust_anchor_load false pos neg d).1 = 0 ∧
      ∀ oom : Bool,
        ((dns_trust_anchor_load oom pos neg d).1 < 0 ↔
          (dns_trust_anchor_add_builtin oom
            (dns_trust_anchor_load_files dns_trust_anchor_load_negative
              (dns_trust_anchor_load_files dns_trust_anchor_load_positive d pos)
              neg)).1 < 0) := by
  intro pos neg d
  constructor
  · have h := add_builtin_false_fst
      (dns_trust_anchor_load_files dns_trust_anchor_load_negative
        (dns_trust_anchor_load_files dns_trust_anchor_load_positive d pos) neg)
    simp [dns_trust_anchor_load, h]
  · intro oom
    simp only [dns_trust_anchor_load]
    split
    · exact Iff.rfl
    · rename_i h
      simp_all

/-- C10: Lookups are total and safe on a freshly created store and on a
flushed store, whose internal containers are unallocated: every positive
lookup returns not-found, every negative lookup returns false, and flushing
any store returns it to the empty state. -/
theorem C10_lookups_safe_on_empty_and_flushed :
    (∀ key : DnsResourceKey,
      dns_trust_anchor_lookup_positive DnsTrustAnchor.empty key = none) ∧
    (∀ name : String,
      dns_trust_anchor_lookup_negative DnsTrustAnchor.empty name = false) ∧
    (∀ d : DnsTrustAnchor, dns_trust_anchor_flush d = DnsTrustAnchor.empty) ∧
    (∀ (d : DnsTrustAnchor) (key : DnsResourceKey),
      dns_trust_anchor_lookup_positive (dns_trust_anchor_flush d) key = none) ∧
    (∀ (d : DnsTrustAnchor) (name : String),
      dns_trust_anchor_lookup_negative (dns_trust_anchor_flush d) name = false) := by
  refine ⟨?_, fun _ => rfl, fun _ => rfl, ?_, fun _ _ => rfl⟩
  · intro key
    unfold dns_trust_anchor_lookup_positive
    split <;> rfl
  · intro d key
    unfold dns_trust_anchor_lookup_positive
    split <;> rfl

/-- The positive scenario line from the specification. -/
def c4_line : String :=
  "example.com IN DS 12345 8 2 ABCDEF0123456789ABCDEF0123456789ABCDEF0123456789ABCDEF01234567"

/-- The bytes the scenario's 62-character hex digest actually decodes to: 31 bytes. -/
def c4_digest : List Nat :=
  [0xAB, 0xCD, 0xEF, 0x01, 0x23, 0x45, 0x67, 0x89,
   0xAB, 0xCD, 0xEF, 0x01, 0x23, 0x45, 0x67, 0x89,
   0xAB, 0xCD, 0xEF, 0x01, 0x23, 0x45, 0x67, 0x89,
   0xAB, 0xCD, 0xEF, 0x01, 0x23, 0x45, 0x67]

/-- C4 counterexample: the scenario's hex string has 62 characters, so the
record stored and served for (IN, DS, example.com) carries a 31-byte digest —
there are no "32 bytes decoded from the hex string" as the claim states. -/
theorem C4_counterexample_digest_is_31_bytes :
    (unhexmem "ABCDEF0123456789ABCDEF0123456789ABCDEF0123456789ABCDEF01234567").map
        List.length = some 31 ∧
    dns_trust_anchor_lookup_positive
        (dns_trust_anchor_load_positive DnsTrustAnchor.empty c4_line).2
        ⟨DNS_CLASS_IN, DNS_TYPE_DS, "example.com"⟩ =
      some [(⟨⟨DNS_CLASS_IN, DNS_TYPE_DS, "example.com"⟩,
        .ds 12345 DNSSEC_ALGORITHM_RSASHA256 DNSSEC_DIGEST_SHA256 c4_digest⟩,
        DNS_ANSWER_AUTHENTICATED)] ∧
    c4_digest.length = 31 ∧ (31 : Nat) ≠ 32 := by
  exact ⟨rfl, rfl, rfl, by decide⟩

/-- C4 (amended): for any syntactically valid positive anchor line, loading it
into an empty store and calling LookupPositive on its (class, type, domain)
key returns an answer set containing exactly that record; for the scenario
line, exactly one DS record with key_tag 12345, algorithm RSASHA256, digest
type SHA-256, and digest equal to the 31 bytes decoded from the hex string. -/
theorem C4_valid_line_roundtrip :
    (∀ (s : String) (rr : DnsResourceRecord), parse_positive_rr s = .ok rr →
      dns_trust_anchor_lookup_positive
          (dns_trust_anchor_load_positive DnsTrustAnchor.empty s).2 rr.key =
        some [(rr, DNS_ANSWER_AUTHENTICATED)]) ∧
    dns_trust_anchor_lookup_positive
        (dns_trust_anchor_load_positive DnsTrustAnchor.empty c4_line).2
        ⟨DNS_CLASS_IN, DNS_TYPE_DS, "example.com"⟩ =
      some [(⟨⟨DNS_CLASS_IN, DNS_TYPE_DS, "example.com"⟩,
        .ds 12345 DNSSEC_ALGORITHM_RSASHA256 DNSSEC_DIGEST_SHA256 c4_digest⟩,
        DNS_ANSWER_AUTHENTICATED)] := by
  constructor
  · intro s rr h
    rw [load_positive_empty s rr h]
    exact lookup_positive_single rr none (parse_positive_rr_key s rr h).2
  · rfl

/-- Witness for C4 at a small concrete line. -/
theorem C4_valid_line_roundtrip_witness :
    dns_trust_anchor_lookup_positive
        (dns_trust_anchor_load_positive DnsTrustAnchor.empty
          "example.org IN DS 1 8 2 AABB").2
        ⟨DNS_CLASS_IN, DNS_TYPE_DS, "example.org"⟩ =
      some [(⟨⟨DNS_CLASS_IN, DNS_TYPE_DS, "example.org"⟩,
        .ds 1 8 2 [0xAA, 0xBB]⟩, DNS_ANSWER_AUTHENTICATED)] :=
  C4_valid_line_roundtrip.1 "example.org IN DS 1 8 2 AABB"
    ⟨⟨DNS_CLASS_IN, DNS_TYPE_DS, "example.org"⟩, .ds 1 8 2 [0xAA, 0xBB]⟩ rfl

theorem nat_lor_one_one : Nat.lor 1 1 = 1 := rfl

/-- C5: Loading the identical syntactically valid positive line twice is a
set-level no-op the second time: merging an all-fields-equal record into the
stored answer set leaves it with exactly one record, and the whole store is
unchanged by the second load. -/
theorem C5_duplicate_line_suppressed :
    ∀ (s : String) (rr : DnsResourceRecord), parse_positive_rr s = .ok rr →
      (dns_trust_anchor_load_positive
          (dns_trust_anchor_load_positive DnsTrustAnchor.empty s).2 s).2 =
        (dns_trust_anchor_load_positive DnsTrustAnchor.empty s).2 ∧
      dns_trust_anchor_lookup_positive
          (dns_trust_anchor_load_positive
            (dns_trust_anchor_load_positive DnsTrustAnchor.empty s).2 s).2 rr.key =
        some [(rr, DNS_ANSWER_AUTHENTICATED)] := by
  intro s rr h
  have hty := (parse_positive_rr_key s rr h).2
  have h1 := load_positive_empty s rr h
  have h2 := load_positive_ok
    (⟨some [(rr.key, [(rr, DNS_ANSWER_AUTHENTICATED)])], none⟩ : DnsTrustAnchor) s rr h
  have hm : hashmap_get [(rr.key, [(rr, DNS_ANSWER_AUTHENTICATED)])] rr.key =
      some [(rr, DNS_ANSWER_AUTHENTICATED)] := by
    simp [hashmap_get_cons, dns_resource_key_equal_refl]
  have hadd : dns_answer_add_extend [(rr, DNS_ANSWER_AUTHENTICATED)] rr
      DNS_ANSWER_AUTHENTICATED = [(rr, DNS_ANSWER_AUTHENTICATED)] := by
    simp [dns_answer_add_extend, dns_answer_add, dns_resource_record_equal_refl,
      DNS_ANSWER_AUTHENTICATED, nat_lor_one_one]
  have hrep : hashmap_replace [(rr.key, [(rr, DNS_ANSWER_AUTHENTICATED)])] rr.key
      [(rr, DNS_ANSWER_AUTHENTICATED)] = [(rr.key, [(rr, DNS_ANSWER_AUTHENTICATED)])] := by
    simp [hashmap_replace, dns_resource_key_equal_refl]
  constructor
  · simp only [h1, h2, hm, Option.getD_some, hadd, hrep]
  · simp only [h1, h2, hm, Option.getD_some, hadd, hrep]
    exact lookup_positive_single rr none hty

/-- Witness for C5 at a small concrete line. -/
theorem C5_duplicate_line_suppressed_witness :
    (dns_trust_anchor_load_positive
        (dns_trust_anchor_load_positive DnsTrustAnchor.empty
          "example.org IN DS 1 8 2 AABB").2 "example.org IN DS 1 8 2 AABB").2 =
      (dns_trust_anchor_load_positive DnsTrustAnchor.empty
        "example.org IN DS 1 8 2 AABB").2 ∧
    dns_trust_anchor_lookup_positive
        (dns_trust_anchor_load_positive
          (dns_trust_anchor_load_positive DnsTrustAnchor.empty
            "example.org IN DS 1 8 2 AABB").2 "example.org IN DS 1 8 2 AABB").2
        (⟨⟨DNS_CLASS_IN, DNS_TYPE_DS, "example.org"⟩,
          .ds 1 8 2 [0xAA, 0xBB]⟩ : DnsResourceRecord).key =
      some [(⟨⟨DNS_CLASS_IN, DNS_TYPE_DS, "example.org"⟩,
        .ds 1 8 2 [0xAA, 0xBB]⟩, DNS_ANSWER_AUTHENTICATED)] :=
  C5_duplicate_line_suppressed "example.org IN DS 1 8 2 AABB"
    ⟨⟨DNS_CLASS_IN, DNS_TYPE_DS, "example.org"⟩, .ds 1 8 2 [0xAA, 0xBB]⟩ rfl

/-- C6: Negative lookup is exact (normalized) membership with no side effects:
a positive result requires a stored name equal to the query — no wildcard or
parent-domain matching — and after inserting "example.com",
LookupNegative("www.example.com") is not-found while
LookupNegative("example.com") is found. -/
theorem C6_lookup_negative_exact_match :
    (∀ (d : DnsTrustAnchor) (name : String),
      dns_trust_anchor_lookup_negative d name = true →
        ∃ n ∈ d.negative_by_name.getD [], dns_name_equal n name = true) ∧
    dns_trust_anchor_lookup_negative
        (dns_trust_anchor_load_negative DnsTrustAnchor.empty "example.com").2
        "www.example.com" = false ∧
    dns_trust_anchor_lookup_negative
        (dns_trust_anchor_load_negative DnsTrustAnchor.empty "example.com").2
        "example.com" = true := by
  refine ⟨?_, rfl, rfl⟩
  intro d name h
  simpa [dns_trust_anchor_lookup_negative, set_contains, List.any_eq_true] using h

/-- Witness for C6: a found lookup exhibits a stored name equal to the query. -/
theorem C6_lookup_negative_exact_match_witness :
    ∃ n ∈ (⟨none, some ["example.com"]⟩ : DnsTrustAnchor).negative_by_name.getD [],
      dns_name_equal n "EXAMPLE.COM." = true :=
  C6_lookup_negative_exact_match.1 ⟨none, some ["example.com"]⟩ "EXAMPLE.COM." (by decide)

/-- C7: A positive or negative line whose domain token is not a valid DNS name
is rejected with EINVAL and leaves the whole store exactly as it was. -/
theorem C7_invalid_domain_line_leaves_store_unchanged :
    ∀ (d : DnsTrustAnchor) (s domain : String) (rest : List String),
      tokenize s = domain :: rest →
      dns_name_is_valid domain = false →
      dns_trust_anchor_load_positive d s = (-EINVAL, d) ∧
      dns_trust_anchor_load_negative d s = (-EINVAL, d) := by
  intro d s domain rest ht hv
  constructor
  · have hp : parse_positive_rr s = .error (-EINVAL) := by
      unfold parse_positive_rr
      rw [ht]
      simp [hv]
    exact load_positive_err d s _ hp
  · unfold dns_trust_anchor_load_negative
    rw [ht]
    simp [hv]

/-- Witness for C7: a line with an empty label in its domain is rejected by
both loaders and the store stays empty. -/
theorem C7_invalid_domain_witness :
    dns_trust_anchor_load_positive DnsTrustAnchor.empty "foo..bar IN DS 1 8 2 AB" =
      (-EINVAL, DnsTrustAnchor.empty) ∧
    dns_trust_anchor_load_negative DnsTrustAnchor.empty "foo..bar IN DS 1 8 2 AB" =
      (-EINVAL, DnsTrustAnchor.empty) :=
  C7_invalid_domain_line_leaves_store_unchanged DnsTrustAnchor.empty
    "foo..bar IN DS 1 8 2 AB" "foo..bar" ["IN", "DS", "1", "8", "2", "AB"] rfl rfl

theorem foldl_trust_preserve {α : Type} (P : DnsTrustAnchor → Prop)
    (f : DnsTrustAnchor → α → DnsTrustAnchor)
    (hf : ∀ st a, P st → P (f st a)) :
    ∀ (l : List α) (st : DnsTrustAnchor), P st → P (l.foldl f st) := by
  intro l
  induction l with
  | nil => intro st h; exact h
  | cons x xs ih => intro st h; exact ih _ (hf _ _ h)

theorem positive_types_ok_load_positive (d : DnsTrustAnchor) (s : String)
    (h : positive_types_ok d) :
    positive_types_ok (dns_trust_anchor_load_positive d s).2 := by
  rcases hp : parse_positive_rr s with e | rr
  · rw [load_positive_err d s e hp]; exact h
  · rw [load_positive_ok d s rr hp]
    intro e he
    simp only [Option.getD_some] at he
    rcases mem_hashmap_replace _ _ _ _ he with h' | h'
    · exact h e h'
    · subst h'
      simpa using (parse_positive_rr_key s rr hp).2

theorem positive_types_ok_load_negative (d : DnsTrustAnchor) (s : String)
    (h : positive_types_ok d) :
    positive_types_ok (dns_trust_anchor_load_negative d s).2 := by
  cases d with
  | mk p n =>
    unfold dns_trust_anchor_load_negative
    split
    · exact h
    · split
      · exact h
      · split
        · exact h
        · intro e he
          exact h e (by simpa using he)

theorem positive_types_ok_load_line
    (loader : DnsTrustAnchor → String → Int × DnsTrustAnchor)
    (hl : ∀ d s, positive_types_ok d → positive_types_ok (loader d s).2)
    (d : DnsTrustAnchor) (raw : String) (h : positive_types_ok d) :
    positive_types_ok (load_line loader d raw) := by
  simp only [load_line]
  split
  · exact h
  · split
    · exact h
    · exact hl _ _ h

theorem positive_types_ok_load_files
    (loader : DnsTrustAnchor → String → Int × DnsTrustAnchor)
    (hl : ∀ d s, positive_types_ok d → positive_types_ok (loader d s).2)
    (files : List (List String)) (d : DnsTrustAnchor) (h : positive_types_ok d) :
    positive_types_ok (dns_trust_anchor_load_files loader d files) := by
  unfold dns_trust_anchor_load_files
  refine foldl_trust_preserve _ _ ?_ files d h
  intro st lines hst
  exact foldl_trust_preserve _ _ (positive_types_ok_load_line loader hl) lines st hst

theorem positive_types_ok_add_builtin (oom : Bool) (d : DnsTrustAnchor)
    (h : positive_types_ok d) :
    positive_types_ok (dns_trust_anchor_add_builtin oom d).2 := by
  cases d with
  | mk p n =>
    simp only [dns_trust_anchor_add_builtin]
    split
    · exact h
    · split
      · intro e he
        exact h e (by simpa using he)
      · split
        · intro e he
          exact h e (by simpa using he)
        · intro e he
          simp only [hashmap_put] at he
          rcases (by simpa using he : e ∈ (⟨p, n⟩ : DnsTrustAnchor).positive_by_key.getD [] ∨
              e = (builtin_root_rr.key,
                dns_answer_add [] builtin_root_rr DNS_ANSWER_AUTHENTICATED)) with h' | h'
          · exact h e h'
          · subst h'
            exact Or.inl rfl

/-- C8: For every key whose type is neither DS nor DNSKEY, LookupPositive
returns not-found regardless of the store's contents; and loading preserves
the invariant that every stored key has type DS or DNSKEY, so no other record
type is ever stored or served. -/
theorem C8_only_ds_dnskey_served_and_stored :
    (∀ (d : DnsTrustAnchor) (key : DnsResourceKey),
      key.rtype ≠ DNS_TYPE_DS → key.rtype ≠ DNS_TYPE_DNSKEY →
      dns_trust_anchor_lookup_positive d key = none) ∧
    (∀ (oom : Bool) (pos neg : List (List String)) (d : DnsTrustAnchor),
      positive_types_ok d →
      positive_types_ok (dns_trust_anchor_load oom pos neg d).2) := by
  constructor
  · intro d key h1 h2
    simp [dns_trust_anchor_lookup_positive, h1, h2]
  · intro oom pos neg d h
    have h1 := positive_types_ok_load_files dns_trust_anchor_load_positive
      positive_types_ok_load_positive pos d h
    have h2 := positive_types_ok_load_files dns_trust_anchor_load_negative
      positive_types_ok_load_negative neg _ h1
    have h3 := positive_types_ok_add_builtin oom _ h2
    simp only [dns_trust_anchor_load]
    split
    · exact h3
    · exact h3

/-- Witness for C8: an A-type key (type 1) is never served, even when present
in the map, and the invariant holds after a load from an empty store. -/
theorem C8_only_ds_dnskey_witness :
    dns_trust_anchor_lookup_positive
        ⟨some [(⟨DNS_CLASS_IN, 1, "example.com"⟩, [])], none⟩
        ⟨DNS_CLASS_IN, 1, "example.com"⟩ = none ∧
    positive_types_ok
      (dns_trust_anchor_load false [["example.com IN DS 1 8 2 AB"]] []
        DnsTrustAnchor.empty).2 :=
  ⟨C8_only_ds_dnskey_served_and_stored.1
      ⟨some [(⟨DNS_CLASS_IN, 1, "example.com"⟩, [])], none⟩
      ⟨DNS_CLASS_IN, 1, "example.com"⟩ (by decide) (by decide),
   C8_only_ds_dnskey_served_and_stored.2 false [["example.com IN DS 1 8 2 AB"]] []
      DnsTrustAnchor.empty (by intro e he; simp [DnsTrustAnchor.empty] at he)⟩

/-- C9: A positive merge is atomic and frame-preserving: a failed line leaves
the store exactly unchanged; a successful line replaces only the entry for the
record's own key with the merge of the old set and the record — a new set, the
sets stored under (or previously returned for) every other key are untouched,
and the negative store is untouched. -/
theorem C9_merge_replaces_single_entry :
    (∀ (d : DnsTrustAnchor) (s : String),
      (dns_trust_anchor_load_positive d s).1 < 0 →
      (dns_trust_anchor_load_positive d s).2 = d) ∧
    (∀ (d : DnsTrustAnchor) (s : String) (rr : DnsResourceRecord),
      parse_positive_rr s = .ok rr →
      (dns_trust_anchor_load_positive d s).2.positive_by_key =
        some (hashmap_replace (d.positive_by_key.getD []) rr.key
          (dns_answer_add_extend
            ((hashmap_get (d.positive_by_key.getD []) rr.key).getD [])
            rr DNS_ANSWER_AUTHENTICATED)) ∧
      (dns_trust_anchor_load_positive d s).2.negative_by_name = d.negative_by_name ∧
      ∀ k : DnsResourceKey, dns_resource_key_equal k rr.key = false →
        hashmap_get ((dns_trust_anchor_load_positive d s).2.positive_by_key.getD []) k =
          hashmap_get (d.positive_by_key.getD []) k) := by
  constructor
  · intro d s h
    rcases hp : parse_positive_rr s with e | rr
    · rw [load_positive_err d s e hp]
    · rw [load_positive_ok d s rr hp] at h
      simp at h
  · intro d s rr hp
    rw [load_positive_ok d s rr hp]
    refine ⟨rfl, rfl, ?_⟩
    intro k hk
    simp only [Option.getD_some]
    exact hashmap_get_replace_of_ne _ _ _ _ hk

/-- Witness for C9: a malformed line leaves the store unchanged, and merging a
record for example.com does not disturb the entry stored for other.org. -/
theorem C9_merge_witness :
    (dns_trust_anchor_load_positive DnsTrustAnchor.empty "not valid").2 =
      DnsTrustAnchor.empty ∧
    hashmap_get
        ((dns_trust_anchor_load_positive
          ⟨some [(⟨DNS_CLASS_IN, DNS_TYPE_DS, "other.org"⟩, [])], none⟩
          "example.com IN DS 1 8 2 AB").2.positive_by_key.getD [])
        ⟨DNS_CLASS_IN, DNS_TYPE_DS, "other.org"⟩ =
      hashmap_get [(⟨DNS_CLASS_IN, DNS_TYPE_DS, "other.org"⟩, [])]
        ⟨DNS_CLASS_IN, DNS_TYPE_DS, "other.org"⟩ :=
  ⟨C9_merge_replaces_single_entry.1 DnsTrustAnchor.empty "not valid" (by decide),
   ((C9_merge_replaces_single_entry.2
      ⟨some [(⟨DNS_CLASS_IN, DNS_TYPE_DS, "other.org"⟩, [])], none⟩
      "example.com IN DS 1 8 2 AB"
      ⟨⟨DNS_CLASS_IN, DNS_TYPE_DS, "example.com"⟩, .ds 1 8 2 [0xAB]⟩ rfl).2.2
      ⟨DNS_CLASS_IN, DNS_TYPE_DS, "other.org"⟩ (by decide))⟩

end TrustAnchor
